import Mathlib

/-!
Shallow embedding of the serverless todo Express API (variant in
src/unnamed/part_000) and proofs of its specified properties.

Conventions of the embedding:
- The DynamoDB table is a list of items looked up by the (pk, sk) pair;
  GetItemCommand is `getItem`, PutItemCommand is `putItem` (overwrite).
- `crypto.pbkdf2Sync(password, salt, ...)` is an arbitrary parameter
  `derive : String → String → String` passed to each handler, since the
  KDF itself is external library code.
- A JWT is modelled symbolically: `jwt.sign(payload, secret)` produces a
  token carrying the payload and a signature that records exactly the pair
  of the signing secret and the signed payload (a perfect-MAC model);
  `jwt.verify` recomputes and compares that pair and checks expiry, since
  the jsonwebtoken library rejects a token once the clock reaches `exp`.
- `getParameterStore` (the SSM secret fetch) is an `Option String`
  argument: `none` models the fetch throwing.
- Un-awaited effects take a Bool argument telling whether the effect
  later succeeds; the handler result must not depend on it.
- `res.json(x)` is a `Response` with body `.json`; `res.send(string)`
  produces a plain text body `.text`; `res.send(object)` behaves the same
  as `res.json(object)` in Express and is rendered as `.json`.
- A handler that throws with no response sent (no try/catch around an
  awaited rejection) returns `none`.
-/

/-- A JSON value, the shape of request and response bodies. -/
inductive Json where
  | null
  | bool (b : Bool)
  | num (n : Int)
  | str (s : String)
  | arr (xs : List Json)
  | obj (fields : List (String × Json))

/-- The JSON object with a single message attribute, the shape a route
produces by res.json with an object literal holding one message field. -/
def msgObj (m : String) : Json :=
  Json.obj [("message", Json.str m)]

/-- The signed JWT payload of this app: jwt.sign is called with the
attributes username, email and exp (seconds since epoch). -/
structure Payload where
  username : String
  email : String
  exp : Nat
  deriving DecidableEq, Repr

/-- A signed token: the payload plus a symbolic signature recording the
secret and payload that were signed (perfect-MAC model of HS256). -/
structure Token where
  payload : Payload
  sig : String × Payload
  deriving DecidableEq, Repr

/-- jwt.sign(payload, secret). -/
def signToken (p : Payload) (secret : String) : Token :=
  ⟨p, (secret, p)⟩

/-- jwt.verify(token, secret) at clock time nowSec = floor(Date.now()/1000):
checks the signature against the given secret and that the clock has not
reached exp; returns the decoded payload on success, none on throw. -/
def verifyToken (tk : Token) (secret : String) (nowSec : Nat) : Option Payload :=
  if tk.sig = (secret, tk.payload) ∧ nowSec < tk.payload.exp then
    some tk.payload
  else
    none

/-- The user record stored as the data attribute of a user item:
{ username, password: hashedPassword, salt, fullname, email }. -/
structure UserData where
  username : String
  password : String
  salt : String
  fullname : String
  email : String

/-- The data attribute of a stored item: a user record or a todo body. -/
inductive ItemData where
  | user (u : UserData)
  | todo (payload : Json)

/-- One DynamoDB item of the single-table design; created_at is present
on user items and absent on todo items. -/
structure Item where
  pk : String
  sk : String
  data : ItemData
  created_at : Option String

/-- The DynamoDB table state. -/
def Table := List Item

/-- Whether an item sits at the given key pair. -/
def keyMatch (pk sk : String) (i : Item) : Bool :=
  i.pk == pk && i.sk == sk

/-- GetItemCommand: fetch the item at a (pk, sk) key, if present. -/
def getItem (t : Table) (pk sk : String) : Option Item :=
  List.find? (keyMatch pk sk) t

/-- PutItemCommand: store an item, replacing any item at the same key. -/
def putItem (t : Table) (i : Item) : Table :=
  i :: List.filter (fun j => ! keyMatch i.pk i.sk j) t

/-- A store operation issued by a handler, recorded in order. -/
inductive StoreOp where
  | get (pk sk : String)
  | put (pk sk : String)
  deriving DecidableEq, Repr

/-- An HTTP response body: res.json(value), or res.send(string) which
Express sends as a plain text/html body, or res.json of an object holding
the signed token. -/
inductive RespBody where
  | json (j : Json)
  | text (s : String)
  | tokenJson (tk : Token)

/-- An HTTP response: status code and body. -/
structure Response where
  status : Nat
  body : RespBody

/-- The 401 body every authentication failure produces:
message Unauthorized (res.json and res.send of that object coincide). -/
def unauthorizedResp : Response :=
  ⟨401, RespBody.json (msgObj "Unauthorized")⟩

/-- JS String.prototype.split with a one-character separator, on
character lists: each separator occurrence cuts a group, adjacent
separators yield empty groups, and the empty string yields one empty
group. -/
def splitChars : List Char → List (List Char)
  | [] => [[]]
  | c :: cs =>
    if c = ' ' then
      [] :: splitChars cs
    else
      match splitChars cs with
      | [] => [[c]]
      | g :: gs => (c :: g) :: gs

/-- authHeader.split(' ') of the middleware. -/
def splitSpace (s : String) : List String :=
  (splitChars s.toList).map String.mk

/-- Token extraction of authMiddleware: authHeader.split(' ')[1], then
the falsy check (both a missing component and the empty string are
falsy in JS and rejected). -/
def tokenFromHeader (h : String) : Option String :=
  match (splitSpace h)[1]? with
  | none => none
  | some t => if t = "" then none else some t

/-- jwt.verify applied to the extracted token string: the wire-format
decoding of the JWT library is an arbitrary parameter decode; a string
that decodes to no token is malformed and verification throws. -/
def jwtVerify (decode : String → Option Token) (tokenStr secret : String)
    (nowSec : Nat) : Option Payload :=
  match decode tokenStr with
  | none => none
  | some tk => verifyToken tk secret nowSec

/-- Outcome of authMiddleware: a rejection response, or the decoded
payload attached to the request as req.user for the next handler. -/
inductive AuthResult where
  | reject (r : Response)
  | allow (user : Payload)

/-- authMiddleware of part_000: missing header rejects, missing or empty
token component rejects, then the secret fetch and jwt.verify run inside
one try/catch whose catch rejects with the same Unauthorized response. -/
def authMiddleware (decode : String → Option Token) (secretFetch : Option String)
    (nowSec : Nat) (authHeader : Option String) : AuthResult :=
  match authHeader with
  | none => AuthResult.reject unauthorizedResp
  | some h =>
    match tokenFromHeader h with
    | none => AuthResult.reject unauthorizedResp
    | some tokenStr =>
      match secretFetch with
      | none => AuthResult.reject unauthorizedResp
      | some secretKey =>
        match jwtVerify decode tokenStr secretKey nowSec with
        | none => AuthResult.reject unauthorizedResp
        | some decoded => AuthResult.allow decoded

/-- The /register request body: the four attributes the handler reads,
each possibly absent (hasOwnProperty false). -/
structure RegisterBody where
  username : Option String
  password : Option String
  fullname : Option String
  email : Option String

/-- One iteration of the required-field loop of /register: absent field
or value of length below 3 produces the 400 response, otherwise none. -/
def checkField (name : String) (v : Option String) : Option Response :=
  match v with
  | none =>
    some ⟨400, RespBody.json (msgObj ("Missing \"" ++ name ++ "\" attribute"))⟩
  | some s =>
    if s.length < 3 then
      some ⟨400, RespBody.json (msgObj ("Value of \"" ++ name ++ "\" is too short"))⟩
    else
      none

/-- The full required-field loop of /register, in source order. -/
def validateRegister (b : RegisterBody) : Option Response :=
  match checkField "username" b.username with
  | some r => some r
  | none =>
    match checkField "password" b.password with
    | some r => some r
    | none =>
      match checkField "fullname" b.fullname with
      | some r => some r
      | none => checkField "email" b.email

/-- Everything a /register call produces: the response (none when the
handler throws without responding), the table after the call, the store
operations issued in order, and the usernames queued for the welcome
email. -/
structure RegisterResult where
  resp : Option Response
  table : Table
  ops : List StoreOp
  queued : List String

/-- The /register handler of part_000: validation loop, existence check
by key user#username / user, then salt generation (the salt argument
stands for crypto.randomBytes), KDF, PutItem, and the awaited SQS
dispatch (sqsOk false models the send rejecting, which aborts the 201
since the route has no try/catch). -/
def registerHandler (derive : String → String → String) (salt createdAt : String)
    (sqsOk : Bool) (t : Table) (b : RegisterBody) : RegisterResult :=
  match validateRegister b with
  | some r => ⟨some r, t, [], []⟩
  | none =>
    let username := b.username.getD ""
    let password := b.password.getD ""
    let fullname := b.fullname.getD ""
    let email := b.email.getD ""
    let pkU := "user#" ++ username
    match getItem t pkU "user" with
    | some _ =>
      ⟨some ⟨400, RespBody.json (msgObj "Username already taken")⟩, t,
        [StoreOp.get pkU "user"], []⟩
    | none =>
      let hashedPassword := derive password salt
      let user : UserData := ⟨username, hashedPassword, salt, fullname, email⟩
      let userItem : Item := ⟨pkU, "user", ItemData.user user, some createdAt⟩
      let t2 := putItem t userItem
      ⟨if sqsOk then
          some ⟨201, RespBody.json (msgObj "User registered successfully")⟩
        else
          none,
        t2, [StoreOp.get pkU "user", StoreOp.put pkU "user"], [username]⟩

/-- The /login request body. -/
structure LoginBody where
  username : String
  password : String

/-- The /login handler of part_000: fetch the user item; a missing item
answers 401 via res.json, a hash mismatch answers 401 via res.send with
a plain string, and a match signs the token with exp = floor(now
milliseconds / 1000) + 60*60*12. The route has no try/catch, so a user
item whose data attribute is not a user record, or a failing secret
fetch, leaves the request without a response (none). -/
def loginHandler (derive : String → String → String) (secretFetch : Option String)
    (nowMs : Nat) (t : Table) (b : LoginBody) : Option Response :=
  let pkU := "user#" ++ b.username
  match getItem t pkU "user" with
  | none => some ⟨401, RespBody.json (msgObj "Invalid username or password")⟩
  | some it =>
    match it.data with
    | ItemData.todo _ => none
    | ItemData.user ud =>
      let hashedPassword := derive b.password ud.salt
      if hashedPassword ≠ ud.password then
        some ⟨401, RespBody.text "Invalid username or password"⟩
      else
        match secretFetch with
        | none => none
        | some secretKey =>
          some ⟨200, RespBody.tokenJson
            (signToken ⟨b.username, ud.email, nowMs / 1000 + 60 * 60 * 12⟩ secretKey)⟩

/-- The data attribute of a stored item as the JSON value res.json
would serialize for it. -/
def itemDataJson : ItemData → Json
  | ItemData.user ud =>
    Json.obj [("username", Json.str ud.username), ("password", Json.str ud.password),
      ("salt", Json.str ud.salt), ("fullname", Json.str ud.fullname),
      ("email", Json.str ud.email)]
  | ItemData.todo p => p

/-- The GET /todos/:id handler of part_000 (after authMiddleware has
attached user): an empty id answers the empty array, a missing item at
key todo#id / todo-username answers the empty array, and a present item
answers its data attribute. -/
def getTodoHandler (t : Table) (id : String) (user : Payload) : Response :=
  if id = "" then
    ⟨200, RespBody.json (Json.arr [])⟩
  else
    match getItem t ("todo#" ++ id) ("todo-" ++ user.username) with
    | none => ⟨200, RespBody.json (Json.arr [])⟩
    | some it => ⟨200, RespBody.json (itemDataJson it.data)⟩

/-- The PUT /todos/:id handler of part_000: an empty id answers 400;
otherwise the item { pk: todo#id, sk: todo-username, data: body } is
sent to the store WITHOUT await and the 200 success message is sent
unconditionally. writeOk tells whether the un-awaited write lands; the
response must not depend on it. -/
def putTodoHandler (t : Table) (id : String) (user : Payload) (body : Json)
    (writeOk : Bool) : Response × Table :=
  if id = "" then
    (⟨400, RespBody.json (msgObj "Bad request: Missing todo id.")⟩, t)
  else
    let todoItem : Item := ⟨"todo#" ++ id, "todo-" ++ user.username,
      ItemData.todo body, none⟩
    (⟨200, RespBody.json (msgObj "Todo successfully added")⟩,
      if writeOk then putItem t todoItem else t)

/-- Whether a register field value fails the required-field loop:
absent, or shorter than 3 characters. -/
def fieldBad (v : Option String) : Bool :=
  match v with
  | none => true
  | some s => decide (s.length < 3)

/-- The 400 message the loop produces for a failing field. -/
def badFieldMsg (name : String) (v : Option String) : String :=
  match v with
  | none => "Missing \"" ++ name ++ "\" attribute"
  | some _ => "Value of \"" ++ name ++ "\" is too short"

/-- The register fields in the order the loop visits them. -/
def registerFields (b : RegisterBody) : List (String × Option String) :=
  [("username", b.username), ("password", b.password),
   ("fullname", b.fullname), ("email", b.email)]

/-- A concrete stand-in for pbkdf2 used to instantiate witnesses. -/
def concatKDF : String → String → String :=
  fun password salt => password ++ salt

/-- A concrete stored user record: password abcdef hashed by concatKDF
with salt salt. -/
def sampleUser : UserData :=
  ⟨"abc", "abcdefsalt", "salt", "Abc Def", "a@b.com"⟩

/-- The stored item of sampleUser. -/
def sampleUserItem : Item :=
  ⟨"user#abc", "user", ItemData.user sampleUser, some "2024-01-01T00:00:00Z"⟩

/-- A table holding only sampleUser. -/
def sampleTable : Table :=
  [sampleUserItem]

/-- A register body that passes the required-field loop. -/
def goodRegisterBody : RegisterBody :=
  ⟨some "abc", some "abcdef", some "Abc Def", some "a@b.com"⟩

/-- A register body with the same username but a one-character
password. -/
def shortPasswordBody : RegisterBody :=
  ⟨some "abc", some "x", some "Abc Def", some "a@b.com"⟩

theorem getItem_putItem (t : Table) (i : Item) :
    getItem (putItem t i) i.pk i.sk = some i := by
  simp [getItem, putItem, List.find?, keyMatch]

/-- C2: for every subject identifier, auxiliary email claim and secret,
verifying a token produced by signToken with the same secret at any
clock time strictly before the embedded expiry succeeds and returns the
original username and claims unchanged. -/
theorem issue_verify_roundtrip (u em secret : String) (e nowSec : Nat)
    (h : nowSec < e) :
    verifyToken (signToken ⟨u, em, e⟩ secret) secret nowSec =
      some ⟨u, em, e⟩ := by
  simp [verifyToken, signToken, h]

theorem issue_verify_roundtrip_witness :
    (3 : Nat) < 100 ∧
      verifyToken (signToken ⟨"abc", "a@b.com", 100⟩ "mysecret") "mysecret" 3 =
        some ⟨"abc", "a@b.com", 100⟩ :=
  ⟨by decide, issue_verify_roundtrip "abc" "a@b.com" "mysecret" 100 3 (by decide)⟩

/-- C8: every successful login at millisecond clock value nowMs issues a
token whose embedded expiry is floor(nowMs / 1000) + 43200 seconds; the
TTL is the fixed constant 60*60*12, not an argument of the route. -/
theorem login_token_ttl_fixed (derive : String → String → String)
    (secretKey : String) (nowMs : Nat) (t : Table) (b : LoginBody)
    (it : Item) (ud : UserData)
    (hit : getItem t ("user#" ++ b.username) "user" = some it)
    (hud : it.data = ItemData.user ud)
    (hpw : derive b.password ud.salt = ud.password) :
    loginHandler derive (some secretKey) nowMs t b =
      some ⟨200, RespBody.tokenJson
        (signToken ⟨b.username, ud.email, nowMs / 1000 + 43200⟩ secretKey)⟩ := by
  simp [loginHandler, hit, hud, hpw]

theorem login_token_ttl_fixed_witness :
    loginHandler concatKDF (some "mysecret") 5900 sampleTable ⟨"abc", "abcdef"⟩ =
      some ⟨200, RespBody.tokenJson
        (signToken ⟨"abc", "a@b.com", 5 + 43200⟩ "mysecret")⟩ :=
  login_token_ttl_fixed concatKDF "mysecret" 5900 sampleTable ⟨"abc", "abcdef"⟩
    sampleUserItem sampleUser rfl rfl rfl

/-- C9: for every authenticated PUT /todos/:id with a non-empty id, the
response is 200 with message Todo successfully added whether or not the
un-awaited store write later succeeds: the response is independent of
the write outcome. -/
theorem put_todo_response_ignores_write (t : Table) (id : String)
    (user : Payload) (body : Json) (h : id ≠ "") :
    (putTodoHandler t id user body true).1 =
      ⟨200, RespBody.json (msgObj "Todo successfully added")⟩ ∧
    (putTodoHandler t id user body false).1 =
      (putTodoHandler t id user body true).1 := by
  simp [putTodoHandler, h]

theorem put_todo_response_ignores_write_witness :
    (putTodoHandler [] "1" ⟨"abc", "a@b.com", 0⟩ (Json.str "milk") true).1 =
      ⟨200, RespBody.json (msgObj "Todo successfully added")⟩ ∧
    (putTodoHandler [] "1" ⟨"abc", "a@b.com", 0⟩ (Json.str "milk") false).1 =
      (putTodoHandler [] "1" ⟨"abc", "a@b.com", 0⟩ (Json.str "milk") true).1 :=
  put_todo_response_ignores_write [] "1" ⟨"abc", "a@b.com", 0⟩ (Json.str "milk")
    (by decide)

/-- C7: for every authenticated user and non-empty todo id with no item
stored at the (id, username) key, GET answers the empty array; and after
a PUT of payload p by that user (with the write landing), a GET by the
same user answers exactly p. -/
theorem todos_get_put_roundtrip (t : Table) (id : String) (user : Payload)
    (p : Json) (hid : id ≠ "")
    (hnone : getItem t ("todo#" ++ id) ("todo-" ++ user.username) = none) :
    getTodoHandler t id user = ⟨200, RespBody.json (Json.arr [])⟩ ∧
    getTodoHandler (putTodoHandler t id user p true).2 id user =
      ⟨200, RespBody.json p⟩ := by
  constructor
  · simp [getTodoHandler, hid, hnone]
  · have hput := getItem_putItem t
      ⟨"todo#" ++ id, "todo-" ++ user.username, ItemData.todo p, none⟩
    simp [getTodoHandler, putTodoHandler, hid, hput, itemDataJson]

theorem todos_get_put_roundtrip_witness :
    getTodoHandler [] "1" ⟨"abc", "a@b.com", 0⟩ =
      ⟨200, RespBody.json (Json.arr [])⟩ ∧
    getTodoHandler (putTodoHandler [] "1" ⟨"abc", "a@b.com", 0⟩
        (Json.str "milk") true).2 "1" ⟨"abc", "a@b.com", 0⟩ =
      ⟨200, RespBody.json (Json.str "milk")⟩ :=
  todos_get_put_roundtrip [] "1" ⟨"abc", "a@b.com", 0⟩ (Json.str "milk")
    (by decide) rfl

theorem tokenFromHeader_bearer_t : tokenFromHeader "Bearer t" = some "t" := by
  decide

/-- C6: verification rejects a token whose payload was altered after
signing, a token checked against a secret other than the issuing one,
and a token whose expiry lies at or before the clock; in each of the
three cases the middleware produces the one Unauthorized 401 response,
so the rejections are externally identical. -/
theorem verify_rejects_tampered_wrong_secret_expired (p p2 : Payload)
    (s s2 : String) (n : Nat) :
    (p2 ≠ p → verifyToken ⟨p2, (s, p)⟩ s n = none ∧
      authMiddleware (fun _ => some ⟨p2, (s, p)⟩) (some s) n (some "Bearer t") =
        AuthResult.reject unauthorizedResp) ∧
    (s2 ≠ s → verifyToken (signToken p s) s2 n = none ∧
      authMiddleware (fun _ => some (signToken p s)) (some s2) n (some "Bearer t") =
        AuthResult.reject unauthorizedResp) ∧
    (p.exp < n → verifyToken (signToken p s) s n = none ∧
      authMiddleware (fun _ => some (signToken p s)) (some s) n (some "Bearer t") =
        AuthResult.reject unauthorizedResp) := by
  refine ⟨fun htamper => ?_, fun hsecret => ?_, fun hexp => ?_⟩
  · have hv : verifyToken ⟨p2, (s, p)⟩ s n = none := by
      simp [verifyToken]
      intro h
      exact absurd h.symm htamper
    exact ⟨hv, by simp [authMiddleware, tokenFromHeader_bearer_t, jwtVerify, hv]⟩
  · have hv : verifyToken (signToken p s) s2 n = none := by
      simp [verifyToken, signToken]
      intro h
      exact absurd h.symm hsecret
    exact ⟨hv, by simp [authMiddleware, tokenFromHeader_bearer_t, jwtVerify, hv]⟩
  · have hv : verifyToken (signToken p s) s n = none := by
      simp [verifyToken, signToken]
      omega
    exact ⟨hv, by simp [authMiddleware, tokenFromHeader_bearer_t, jwtVerify, hv]⟩

theorem verify_rejects_witness :
    (verifyToken ⟨⟨"eve", "e@b.com", 9⟩, ("key", ⟨"abc", "a@b.com", 9⟩)⟩ "key" 3 = none ∧
      authMiddleware (fun _ => some ⟨⟨"eve", "e@b.com", 9⟩, ("key", ⟨"abc", "a@b.com", 9⟩)⟩)
        (some "key") 3 (some "Bearer t") = AuthResult.reject unauthorizedResp) ∧
    (verifyToken (signToken ⟨"abc", "a@b.com", 9⟩ "key") "other" 3 = none ∧
      authMiddleware (fun _ => some (signToken ⟨"abc", "a@b.com", 9⟩ "key"))
        (some "other") 3 (some "Bearer t") = AuthResult.reject unauthorizedResp) ∧
    (verifyToken (signToken ⟨"abc", "a@b.com", 9⟩ "key") "key" 20 = none ∧
      authMiddleware (fun _ => some (signToken ⟨"abc", "a@b.com", 9⟩ "key"))
        (some "key") 20 (some "Bearer t") = AuthResult.reject unauthorizedResp) := by
  refine ⟨?_, ?_, ?_⟩
  · exact (verify_rejects_tampered_wrong_secret_expired ⟨"abc", "a@b.com", 9⟩
      ⟨"eve", "e@b.com", 9⟩ "key" "other" 3).1 (by decide)
  · exact (verify_rejects_tampered_wrong_secret_expired ⟨"abc", "a@b.com", 9⟩
      ⟨"eve", "e@b.com", 9⟩ "key" "other" 3).2.1 (by decide)
  · exact (verify_rejects_tampered_wrong_secret_expired ⟨"abc", "a@b.com", 9⟩
      ⟨"eve", "e@b.com", 9⟩ "key" "other" 20).2.2 (by decide)

/-- C3: the Auth Gate answers the one Unauthorized 401 response when the
authorization header is absent or carries no token component, and its
answer in those two cases is the same for every decoder, secret-fetch
outcome and clock, so neither a verification nor a secret fetch can
influence it; when a token component is present but the secret fetch
fails it answers the same 401, exactly as it does for a token that fails
verification. -/
theorem auth_gate_unauthorized_cases :
    (∀ (decode : String → Option Token) (sf : Option String) (n : Nat),
      authMiddleware decode sf n none = AuthResult.reject unauthorizedResp) ∧
    (∀ (decode : String → Option Token) (sf : Option String) (n : Nat) (h : String),
      tokenFromHeader h = none →
      authMiddleware decode sf n (some h) = AuthResult.reject unauthorizedResp) ∧
    (∀ (decode : String → Option Token) (n : Nat) (h ts : String),
      tokenFromHeader h = some ts →
      authMiddleware decode none n (some h) = AuthResult.reject unauthorizedResp ∧
      ∀ s : String, jwtVerify decode ts s n = none →
        authMiddleware decode (some s) n (some h) = AuthResult.reject unauthorizedResp) := by
  refine ⟨fun decode sf n => rfl, fun decode sf n h hh => ?_, fun decode n h ts hts => ?_⟩
  · simp [authMiddleware, hh]
  · refine ⟨by simp [authMiddleware, hts], fun s hver => ?_⟩
    simp [authMiddleware, hts, hver]

theorem auth_gate_unauthorized_cases_witness :
    authMiddleware (fun _ => none) (some "key") 0 none =
      AuthResult.reject unauthorizedResp ∧
    authMiddleware (fun _ => none) (some "key") 0 (some "Bearer") =
      AuthResult.reject unauthorizedResp ∧
    authMiddleware (fun _ => none) none 0 (some "Bearer t") =
      AuthResult.reject unauthorizedResp ∧
    authMiddleware (fun _ => none) (some "key") 0 (some "Bearer t") =
      AuthResult.reject unauthorizedResp := by
  refine ⟨auth_gate_unauthorized_cases.1 (fun _ => none) (some "key") 0, ?_, ?_, ?_⟩
  · exact auth_gate_unauthorized_cases.2.1 (fun _ => none) (some "key") 0 "Bearer"
      (by decide)
  · exact (auth_gate_unauthorized_cases.2.2 (fun _ => none) 0 "Bearer t" "t"
      (by decide)).1
  · exact (auth_gate_unauthorized_cases.2.2 (fun _ => none) 0 "Bearer t" "t"
      (by decide)).2 "key" rfl

theorem splitChars_append_space (sch tok : List Char) (h : ' ' ∉ sch) :
    splitChars (sch ++ ' ' :: tok) = sch :: splitChars tok := by
  induction sch with
  | nil => simp [splitChars]
  | cons c cs ih =>
    simp only [List.mem_cons, not_or] at h
    rw [List.cons_append, splitChars, if_neg (fun hc => h.1 hc.symm), ih h.2]

theorem splitChars_no_space (tok : List Char) (h : ' ' ∉ tok) :
    splitChars tok = [tok] := by
  induction tok with
  | nil => simp [splitChars]
  | cons c cs ih =>
    simp only [List.mem_cons, not_or] at h
    rw [splitChars, if_neg (fun hc => h.1 hc.symm), ih h.2]

theorem tokenFromHeader_scheme (sch tok : List Char) (hs : ' ' ∉ sch)
    (ht : ' ' ∉ tok) (hne : tok ≠ []) :
    tokenFromHeader (String.mk (sch ++ ' ' :: tok)) = some (String.mk tok) := by
  have hmk : String.mk tok ≠ "" := by
    intro hc
    apply hne
    have := congrArg String.toList hc
    simpa using this
  simp [tokenFromHeader, splitSpace, splitChars_append_space sch tok hs,
    splitChars_no_space tok ht, hmk]

/-- C10: the middleware never inspects the scheme keyword of the
authorization header: for a header consisting of any space-free scheme
word, one space, and a space-free non-empty token string, the extracted
token is the second component whatever the scheme is, and the whole
authentication outcome equals the outcome for the same token presented
under the Bearer scheme. -/
theorem auth_scheme_not_checked (sch tok : List Char)
    (decode : String → Option Token) (sf : Option String) (n : Nat)
    (hs : ' ' ∉ sch) (ht : ' ' ∉ tok) (hne : tok ≠ []) :
    tokenFromHeader (String.mk (sch ++ ' ' :: tok)) = some (String.mk tok) ∧
    authMiddleware decode sf n (some (String.mk (sch ++ ' ' :: tok))) =
      authMiddleware decode sf n (some ("Bearer " ++ String.mk tok)) := by
  have hb : ("Bearer " ++ String.mk tok) = String.mk ("Bearer".toList ++ ' ' :: tok) := by
    simp [String.ext_iff]
  have h1 := tokenFromHeader_scheme sch tok hs ht hne
  have h2 := tokenFromHeader_scheme "Bearer".toList tok (by decide) ht hne
  refine ⟨h1, ?_⟩
  rw [hb]
  simp only [authMiddleware, h1, h2]

theorem auth_scheme_not_checked_witness :
    tokenFromHeader (String.mk ("Basic".toList ++ ' ' :: "tok".toList)) =
      some (String.mk "tok".toList) ∧
    authMiddleware (fun _ => none) (some "key") 0
        (some (String.mk ("Basic".toList ++ ' ' :: "tok".toList))) =
      authMiddleware (fun _ => none) (some "key") 0
        (some ("Bearer " ++ String.mk "tok".toList)) :=
  auth_scheme_not_checked "Basic".toList "tok".toList (fun _ => none)
    (some "key") 0 (by decide) (by decide) (by decide)

theorem checkField_of_bad (name : String) (v : Option String)
    (h : fieldBad v = true) :
    checkField name v = some ⟨400, RespBody.json (msgObj (badFieldMsg name v))⟩ := by
  cases v with
  | none => rfl
  | some s =>
    simp only [fieldBad, decide_eq_true_eq] at h
    simp [checkField, badFieldMsg, h]

theorem checkField_of_good (name : String) (v : Option String)
    (h : fieldBad v = false) :
    checkField name v = none := by
  cases v with
  | none => simp [fieldBad] at h
  | some s =>
    simp only [fieldBad, decide_eq_false_iff_not] at h
    simp [checkField, h]

/-- C4: a /register body with a required field absent or shorter than 3
characters answers 400 with the message naming one such field (the first
the loop reaches), with no store operation issued and the table
untouched. -/
theorem register_validation_before_store (derive : String → String → String)
    (salt createdAt : String) (sqsOk : Bool) (t : Table) (b : RegisterBody)
    (h : fieldBad b.username = true ∨ fieldBad b.password = true ∨
      fieldBad b.fullname = true ∨ fieldBad b.email = true) :
    (registerHandler derive salt createdAt sqsOk t b).table = t ∧
    (registerHandler derive salt createdAt sqsOk t b).ops = [] ∧
    ∃ nv, nv ∈ registerFields b ∧ fieldBad nv.2 = true ∧
      (registerHandler derive salt createdAt sqsOk t b).resp =
        some ⟨400, RespBody.json (msgObj (badFieldMsg nv.1 nv.2))⟩ := by
  have key : ∃ nv, nv ∈ registerFields b ∧ fieldBad nv.2 = true ∧
      validateRegister b =
        some ⟨400, RespBody.json (msgObj (badFieldMsg nv.1 nv.2))⟩ := by
    by_cases h1 : fieldBad b.username = true
    · exact ⟨("username", b.username), by simp [registerFields], h1,
        by simp [validateRegister, checkField_of_bad "username" b.username h1]⟩
    · have g1 := checkField_of_good "username" b.username (by simpa using h1)
      by_cases h2 : fieldBad b.password = true
      · exact ⟨("password", b.password), by simp [registerFields], h2,
          by simp [validateRegister, g1,
            checkField_of_bad "password" b.password h2]⟩
      · have g2 := checkField_of_good "password" b.password (by simpa using h2)
        by_cases h3 : fieldBad b.fullname = true
        · exact ⟨("fullname", b.fullname), by simp [registerFields], h3,
            by simp [validateRegister, g1, g2,
              checkField_of_bad "fullname" b.fullname h3]⟩
        · have g3 := checkField_of_good "fullname" b.fullname (by simpa using h3)
          have h4 : fieldBad b.email = true := by
            rcases h with h | h | h | h
            exacts [absurd h h1, absurd h h2, absurd h h3, h]
          exact ⟨("email", b.email), by simp [registerFields], h4,
            by simp [validateRegister, g1, g2, g3,
              checkField_of_bad "email" b.email h4]⟩
  rcases key with ⟨nv, hmem, hbad, hval⟩
  refine ⟨by simp [registerHandler, hval], by simp [registerHandler, hval],
    nv, hmem, hbad, by simp [registerHandler, hval]⟩

theorem register_validation_before_store_witness :
    (registerHandler concatKDF "salt" "2024-01-01T00:00:00Z" true []
        ⟨some "ab", some "abcdef", some "Abc Def", some "a@b.com"⟩).table = [] ∧
    (registerHandler concatKDF "salt" "2024-01-01T00:00:00Z" true []
        ⟨some "ab", some "abcdef", some "Abc Def", some "a@b.com"⟩).ops = [] ∧
    ∃ nv, nv ∈ registerFields
        ⟨some "ab", some "abcdef", some "Abc Def", some "a@b.com"⟩ ∧
      fieldBad nv.2 = true ∧
      (registerHandler concatKDF "salt" "2024-01-01T00:00:00Z" true []
          ⟨some "ab", some "abcdef", some "Abc Def", some "a@b.com"⟩).resp =
        some ⟨400, RespBody.json (msgObj (badFieldMsg nv.1 nv.2))⟩ :=
  register_validation_before_store concatKDF "salt" "2024-01-01T00:00:00Z" true []
    ⟨some "ab", some "abcdef", some "Abc Def", some "a@b.com"⟩
    (Or.inl (by decide))

/-- C5 as frozen is false: after a successful registration of abc, a
second request for abc whose password has length 1 answers 400 with the
validation message for password, not the message Username already
taken. -/
theorem register_duplicate_counterexample :
    (registerHandler concatKDF "salt" "2024-01-01T00:00:00Z" true []
        goodRegisterBody).resp =
      some ⟨201, RespBody.json (msgObj "User registered successfully")⟩ ∧
    getItem (registerHandler concatKDF "salt" "2024-01-01T00:00:00Z" true []
        goodRegisterBody).table "user#abc" "user" = some sampleUserItem ∧
    (registerHandler concatKDF "salt2" "2024-01-02T00:00:00Z" true
        (registerHandler concatKDF "salt" "2024-01-01T00:00:00Z" true []
          goodRegisterBody).table shortPasswordBody).resp =
      some ⟨400, RespBody.json (msgObj "Value of \"password\" is too short")⟩ ∧
    msgObj "Value of \"password\" is too short" ≠ msgObj "Username already taken" := by
  refine ⟨rfl, rfl, rfl, ?_⟩
  intro hc
  simp only [msgObj] at hc
  injection hc with h1
  injection h1 with h2 h3
  injection h2 with h4 h5
  injection h5 with h6
  exact absurd h6 (by decide)

/-- C5 (amended): when the second request for an already-stored username
passes the required-field loop, it answers 400 Username already taken,
issues only the existence read (no write) and leaves the table as it
was; a second request failing the loop instead answers the 400
validation message. -/
theorem register_duplicate_conflict (derive : String → String → String)
    (salt createdAt : String) (sqsOk : Bool) (t : Table) (b : RegisterBody)
    (u : String) (it : Item)
    (hu : b.username = some u)
    (hvalid : validateRegister b = none)
    (hstored : getItem t ("user#" ++ u) "user" = some it) :
    registerHandler derive salt createdAt sqsOk t b =
      ⟨some ⟨400, RespBody.json (msgObj "Username already taken")⟩, t,
        [StoreOp.get ("user#" ++ u) "user"], []⟩ := by
  simp [registerHandler, hvalid, hu, hstored]

theorem register_duplicate_conflict_witness :
    registerHandler concatKDF "salt2" "2024-01-02T00:00:00Z" true sampleTable
        goodRegisterBody =
      ⟨some ⟨400, RespBody.json (msgObj "Username already taken")⟩, sampleTable,
        [StoreOp.get "user#abc" "user"], []⟩ :=
  register_duplicate_conflict concatKDF "salt2" "2024-01-02T00:00:00Z" true
    sampleTable goodRegisterBody "abc" sampleUserItem rfl rfl rfl

/-- C1 as frozen is false: against a store holding the user abc, a login
with an unknown username and a login for abc with a wrong password both
answer 401 with the message text Invalid username or password, but the
first body is the JSON object from res.json and the second the plain
string from res.send, so the two response bodies differ. -/
theorem login_error_bodies_differ :
    loginHandler concatKDF (some "mysecret") 0 sampleTable ⟨"nouser", "whatever"⟩ =
      some ⟨401, RespBody.json (msgObj "Invalid username or password")⟩ ∧
    loginHandler concatKDF (some "mysecret") 0 sampleTable ⟨"abc", "wrongpw"⟩ =
      some ⟨401, RespBody.text "Invalid username or password"⟩ ∧
    RespBody.json (msgObj "Invalid username or password") ≠
      RespBody.text "Invalid username or password" := by
  refine ⟨rfl, rfl, ?_⟩
  intro hc
  exact RespBody.noConfusion hc

/-- C1 (amended): an unknown username and a wrong password for a stored
user both answer status 401 carrying the message text Invalid username
or password; the bodies however differ in serialization, the unknown
username answered as a JSON object and the wrong password as a plain
string. -/
theorem login_failures_same_status_message (derive : String → String → String)
    (sf : Option String) (nowMs : Nat) (t : Table) (b b2 : LoginBody)
    (it : Item) (ud : UserData)
    (h1 : getItem t ("user#" ++ b.username) "user" = none)
    (h2 : getItem t ("user#" ++ b2.username) "user" = some it)
    (hud : it.data = ItemData.user ud)
    (hpw : derive b2.password ud.salt ≠ ud.password) :
    loginHandler derive sf nowMs t b =
      some ⟨401, RespBody.json (msgObj "Invalid username or password")⟩ ∧
    loginHandler derive sf nowMs t b2 =
      some ⟨401, RespBody.text "Invalid username or password"⟩ := by
  constructor
  · simp [loginHandler, h1]
  · simp [loginHandler, h2, hud, hpw]

theorem login_failures_same_status_message_witness :
    loginHandler concatKDF (some "mysecret") 0 sampleTable ⟨"nouser", "whatever"⟩ =
      some ⟨401, RespBody.json (msgObj "Invalid username or password")⟩ ∧
    loginHandler concatKDF (some "mysecret") 0 sampleTable ⟨"abc", "wrongpw"⟩ =
      some ⟨401, RespBody.text "Invalid username or password"⟩ :=
  login_failures_same_status_message concatKDF (some "mysecret") 0 sampleTable
    ⟨"nouser", "whatever"⟩ ⟨"abc", "wrongpw"⟩ sampleUserItem sampleUser
    rfl rfl rfl (by decide)
